import Mathlib

/-! Shallow embedding of the skcms ICC profile decoder (src/ICCProfile.c).

Bytes are modelled as natural numbers reduced mod 256 (uint8_t); wider machine
integers are Nat/Int with explicit two-s complement reinterpretation where the
C code casts; the C float s15.16 decoding is modelled as the exact rational
value; C functions returning bool through out-parameters become Option-valued
functions. Reads past the end of a buffer yield 0. -/

/-- A byte fetched from a buffer: reads past the end produce 0 and stored
values are reduced mod 256 as a uint8_t would be. -/
def byteAt (buf : List Nat) (i : Nat) : Nat := (buf.getD i 0) % 256

def read_big_u16 (buf : List Nat) (p : Nat) : Nat :=
  byteAt buf p * 256 + byteAt buf (p+1)

def read_big_u32 (buf : List Nat) (p : Nat) : Nat :=
  byteAt buf p * 16777216 + byteAt buf (p+1) * 65536 + byteAt buf (p+2) * 256 + byteAt buf (p+3)

/-- Reinterpret a uint32 value as an int32 (the (int32_t) cast in read_big_i32). -/
def toInt32 (v : Nat) : Int := if v < 2147483648 then (v : Int) else (v : Int) - 4294967296

def read_big_i32 (buf : List Nat) (p : Nat) : Int := toInt32 (read_big_u32 buf p)

def read_big_u64 (buf : List Nat) (p : Nat) : Nat :=
  read_big_u32 buf p * 4294967296 + read_big_u32 buf (p+4)

/-- s15.16 fixed point: the signed 32-bit value divided by 65536, kept as an
exact rational in place of the C float (mkRat n d is the rational n / d). -/
def read_big_fixed (buf : List Nat) (p : Nat) : ℚ := mkRat (read_big_i32 buf p) 65536

def make_signature (a b c d : Nat) : Nat :=
  (a % 256) * 16777216 + (b % 256) * 65536 + (c % 256) * 256 + d % 256

def sig_acsp : Nat := make_signature 97 99 115 112
def sig_para : Nat := make_signature 112 97 114 97
def sig_curv : Nat := make_signature 99 117 114 118
def sig_XYZ : Nat := make_signature 88 89 90 32
def sig_rTRC : Nat := make_signature 114 84 82 67
def sig_gTRC : Nat := make_signature 103 84 82 67
def sig_bTRC : Nat := make_signature 98 84 82 67
def sig_rXYZ : Nat := make_signature 114 88 89 90
def sig_gXYZ : Nat := make_signature 103 88 89 90
def sig_bXYZ : Nat := make_signature 98 88 89 90
def sig_A2B0 : Nat := make_signature 65 50 66 48
def sig_mft1 : Nat := make_signature 109 102 116 49
def sig_mft2 : Nat := make_signature 109 102 116 50

structure skcms_ICCDateTime where
  year : Nat
  month : Nat
  day : Nat
  hour : Nat
  minute : Nat
  second : Nat
deriving DecidableEq, Repr

def read_big_date_time (buf : List Nat) (p : Nat) : skcms_ICCDateTime :=
  { year := read_big_u16 buf p
    month := read_big_u16 buf (p+2)
    day := read_big_u16 buf (p+4)
    hour := read_big_u16 buf (p+6)
    minute := read_big_u16 buf (p+8)
    second := read_big_u16 buf (p+10) }

/-- The 7-parameter transfer function; parameters are exact rationals in place
of the C floats. -/
structure skcms_TransferFunction where
  g : ℚ
  a : ℚ
  b : ℚ
  c : ℚ
  d : ℚ
  e : ℚ
  f : ℚ
deriving DecidableEq, Repr

def zeroTF : skcms_TransferFunction := ⟨0, 0, 0, 0, 0, 0, 0⟩

/-- Unified representation of any curv or para tag data. The C struct holds a
pointer to the sample table; the model stores the byte offset of the table
inside the tag bytes (none when the curve is parametric, as the NULL pointer). -/
structure Curve where
  parametric : skcms_TransferFunction
  table : Option Nat
  table_size : Nat
deriving DecidableEq, Repr

/-- Parameter byte counts for para function types 0..4 (the curve_bytes array). -/
def curve_bytes : Nat → Nat
  | 0 => 4
  | 1 => 12
  | 2 => 16
  | 3 => 20
  | 4 => 28
  | _ => 0

def read_curve_para (buf : List Nat) (size : Nat) : Option Curve :=
  if size < 12 then none else
  let function_type := read_big_u16 buf 8
  if 4 < function_type then none else
  if size < 12 + curve_bytes function_type then none else
  let g0 := read_big_fixed buf 12
  if function_type = 0 then
    some { parametric := { g := g0, a := 1, b := 0, c := 0, d := 0, e := 0, f := 0 },
           table := none, table_size := 0 }
  else if function_type = 1 then
    let a0 := read_big_fixed buf 16
    let b0 := read_big_fixed buf 20
    if a0 = 0 then none else
    some { parametric := { g := g0, a := a0, b := b0, c := 0, d := -b0 / a0, e := 0, f := 0 },
           table := none, table_size := 0 }
  else if function_type = 2 then
    let a0 := read_big_fixed buf 16
    let b0 := read_big_fixed buf 20
    let e0 := read_big_fixed buf 24
    if a0 = 0 then none else
    some { parametric := { g := g0, a := a0, b := b0, c := 0, d := -b0 / a0, e := e0, f := e0 },
           table := none, table_size := 0 }
  else if function_type = 3 then
    some { parametric := { g := g0, a := read_big_fixed buf 16, b := read_big_fixed buf 20,
                           c := read_big_fixed buf 24, d := read_big_fixed buf 28, e := 0, f := 0 },
           table := none, table_size := 0 }
  else
    some { parametric := { g := g0, a := read_big_fixed buf 16, b := read_big_fixed buf 20,
                           c := read_big_fixed buf 24, d := read_big_fixed buf 28,
                           e := read_big_fixed buf 32, f := read_big_fixed buf 36 },
           table := none, table_size := 0 }

def read_curve_curv (buf : List Nat) (size : Nat) : Option Curve :=
  if size < 12 then none else
  let value_count := read_big_u32 buf 8
  if size < 12 + value_count * 2 then none else
  if value_count = 0 then
    some { parametric := { g := 1, a := 1, b := 0, c := 0, d := 0, e := 0, f := 0 },
           table := none, table_size := 0 }
  else if value_count = 1 then
    some { parametric := { g := (read_big_u16 buf 12 : ℚ) / 256,
                           a := 1, b := 0, c := 0, d := 0, e := 0, f := 0 },
           table := none, table_size := 0 }
  else
    some { parametric := zeroTF, table := some 12, table_size := value_count }

/-- Parses both curveType and parametricCurveType data. -/
def read_curve (buf : List Nat) (size : Nat) : Option Curve :=
  if size < 4 then none else
  let t := read_big_u32 buf 0
  if t = sig_para then read_curve_para buf size
  else if t = sig_curv then read_curve_curv buf size
  else none

/-- Row-major 3x3 matrix of exact rationals (vals[r][c] becomes the field mRC). -/
structure skcms_Matrix3x3 where
  m00 : ℚ
  m01 : ℚ
  m02 : ℚ
  m10 : ℚ
  m11 : ℚ
  m12 : ℚ
  m20 : ℚ
  m21 : ℚ
  m22 : ℚ
deriving DecidableEq, Repr

def zeroMatrix : skcms_Matrix3x3 := ⟨0, 0, 0, 0, 0, 0, 0, 0, 0⟩

/-- The in-memory profile record used by ICCProfile.c. The struct definition
the .c file compiles against is not part of src (the skcms.h in the tree is a
later revision); the fields here are exactly those ICCProfile.c reads or
writes, plus has_A2B, which skcms.h documents as a derived-data flag of the
profile record and which ICCProfile.c never assigns, so it keeps the value
memset gives it. The buffer pointer becomes the byte list itself. -/
structure skcms_ICCProfile where
  buffer : List Nat
  size : Nat
  cmm_type : Nat
  version : Nat
  profile_class : Nat
  data_color_space : Nat
  pcs : Nat
  creation_date_time : skcms_ICCDateTime
  signature : Nat
  platform : Nat
  flags : Nat
  device_manufacturer : Nat
  device_model : Nat
  device_attributes : Nat
  rendering_intent : Nat
  illuminant_X : ℚ
  illuminant_Y : ℚ
  illuminant_Z : ℚ
  creator : Nat
  profile_id : List Nat
  tag_count : Nat
  has_tf : Bool
  tf : skcms_TransferFunction
  has_toXYZD50 : Bool
  toXYZD50 : skcms_Matrix3x3
  has_A2B : Bool

/-- The all-zero profile produced by memset(profile, 0, sizeof(*profile)). -/
def emptyProfile : skcms_ICCProfile :=
  { buffer := []
    size := 0
    cmm_type := 0
    version := 0
    profile_class := 0
    data_color_space := 0
    pcs := 0
    creation_date_time := ⟨0, 0, 0, 0, 0, 0⟩
    signature := 0
    platform := 0
    flags := 0
    device_manufacturer := 0
    device_model := 0
    device_attributes := 0
    rendering_intent := 0
    illuminant_X := 0
    illuminant_Y := 0
    illuminant_Z := 0
    creator := 0
    profile_id := []
    tag_count := 0
    has_tf := false
    tf := zeroTF
    has_toXYZD50 := false
    toXYZD50 := zeroMatrix
    has_A2B := false }

/-- An ICC tag record; buf is the byte offset of the tag data inside the
profile buffer (the C pointer profile->buffer + offset). -/
structure skcms_ICCTag where
  signature : Nat
  type : Nat
  size : Nat
  buf : Nat
deriving DecidableEq, Repr

/-- Signature field of tag-table entry i (the table starts at byte 132). -/
def tag_sig_at (p : skcms_ICCProfile) (i : Nat) : Nat := read_big_u32 p.buffer (132 + 12 * i)

/-- Offset field of tag-table entry i. -/
def tag_off_at (p : skcms_ICCProfile) (i : Nat) : Nat := read_big_u32 p.buffer (132 + 12 * i + 4)

/-- Size field of tag-table entry i. -/
def tag_size_at (p : skcms_ICCProfile) (i : Nat) : Nat := read_big_u32 p.buffer (132 + 12 * i + 8)

def skcms_GetTagByIndex (p : skcms_ICCProfile) (idx : Nat) (tag : skcms_ICCTag) : skcms_ICCTag :=
  if p.buffer.isEmpty then tag else
  if p.tag_count < idx then tag else
  { signature := tag_sig_at p idx
    size := tag_size_at p idx
    buf := tag_off_at p idx
    type := read_big_u32 p.buffer (tag_off_at p idx) }

def skcms_GetTagBySignature (p : skcms_ICCProfile) (sig : Nat) : Option skcms_ICCTag :=
  if p.buffer.isEmpty then none else
  match (List.range p.tag_count).find? (fun i => tag_sig_at p i == sig) with
  | none => none
  | some i =>
    some { signature := sig
           size := tag_size_at p i
           buf := tag_off_at p i
           type := read_big_u32 p.buffer (tag_off_at p i) }

/-- The bytes a tag points at: the profile buffer from the tag offset on (the
C pointer tag->buf). -/
def tag_bytes (p : skcms_ICCProfile) (t : skcms_ICCTag) : List Nat := p.buffer.drop t.buf

def get_transfer_function (p : skcms_ICCProfile) : Option skcms_TransferFunction :=
  match skcms_GetTagBySignature p sig_rTRC with
  | none => none
  | some rTRC =>
  match skcms_GetTagBySignature p sig_gTRC with
  | none => none
  | some gTRC =>
  match skcms_GetTagBySignature p sig_bTRC with
  | none => none
  | some bTRC =>
  match read_curve (tag_bytes p rTRC) rTRC.size with
  | none => none
  | some rCurve =>
  if rCurve.table.isSome then none else
  match read_curve (tag_bytes p gTRC) gTRC.size with
  | none => none
  | some gCurve =>
  if gCurve.table.isSome then none else
  match read_curve (tag_bytes p bTRC) bTRC.size with
  | none => none
  | some bCurve =>
  if bCurve.table.isSome then none else
  if rCurve.parametric = gCurve.parametric ∧ rCurve.parametric = bCurve.parametric
  then some rCurve.parametric
  else none

/-- XYZ_Layout: type at +0, reserved at +4, then X, Y, Z s15.16 at +8, +12, +16. -/
def read_tag_xyz (p : skcms_ICCProfile) (t : skcms_ICCTag) : Option (ℚ × ℚ × ℚ) :=
  if t.type = sig_XYZ ∧ 20 ≤ t.size then
    some (read_big_fixed p.buffer (t.buf + 8),
          read_big_fixed p.buffer (t.buf + 12),
          read_big_fixed p.buffer (t.buf + 16))
  else none

def read_to_XYZD50 (p : skcms_ICCProfile) : Option skcms_Matrix3x3 :=
  match skcms_GetTagBySignature p sig_rXYZ with
  | none => none
  | some rXYZ =>
  match skcms_GetTagBySignature p sig_gXYZ with
  | none => none
  | some gXYZ =>
  match skcms_GetTagBySignature p sig_bXYZ with
  | none => none
  | some bXYZ =>
  match read_tag_xyz p rXYZ with
  | none => none
  | some rv =>
  match read_tag_xyz p gXYZ with
  | none => none
  | some gv =>
  match read_tag_xyz p bXYZ with
  | none => none
  | some bv =>
  some { m00 := rv.1, m10 := rv.2.1, m20 := rv.2.2
         m01 := gv.1, m11 := gv.2.1, m21 := gv.2.2
         m02 := bv.1, m12 := bv.2.1, m22 := bv.2.2 }

/-- The multi-function (A2B) table record. Table pointers become byte offsets
into the profile buffer; input_tables and output_tables hold the offsets the C
code stores in its fixed arrays (only the first input_channels, respectively
all three, entries are ever written by init_mft_tables). -/
structure skcms_MultiFunctionTable where
  matrix : skcms_Matrix3x3
  input_channels : Nat
  grid_points : Nat
  output_channels : Nat
  input_table_size : Nat
  output_table_size : Nat
  table_byte_width : Nat
  input_tables : List Nat
  grid : Nat
  output_tables : List Nat
deriving DecidableEq, Repr

def emptyMFT : skcms_MultiFunctionTable :=
  { matrix := zeroMatrix
    input_channels := 0
    grid_points := 0
    output_channels := 0
    input_table_size := 0
    output_table_size := 0
    table_byte_width := 0
    input_tables := []
    grid := 0
    output_tables := [] }

/-- Nine s15.16 values read row-major starting at off (the matrix loop of
read_mft_common). -/
def read_matrix_3x3_fixed (buf : List Nat) (off : Nat) : skcms_Matrix3x3 :=
  { m00 := read_big_fixed buf off,      m01 := read_big_fixed buf (off + 4),  m02 := read_big_fixed buf (off + 8)
    m10 := read_big_fixed buf (off + 12), m11 := read_big_fixed buf (off + 16), m12 := read_big_fixed buf (off + 20)
    m20 := read_big_fixed buf (off + 24), m21 := read_big_fixed buf (off + 28), m22 := read_big_fixed buf (off + 32) }

/-- mft_CommonLayout: type +0, reserved +4, input_channels +8, output_channels
+9, grid_points +10, reserved +11, matrix +12..+47. tagoff is where the tag
data begins in the profile buffer. -/
def read_mft_common (buf : List Nat) (tagoff : Nat) (m : skcms_MultiFunctionTable) :
    Option skcms_MultiFunctionTable :=
  let m1 := { m with matrix := read_matrix_3x3_fixed buf (tagoff + 12)
                     input_channels := byteAt buf (tagoff + 8)
                     grid_points := byteAt buf (tagoff + 10)
                     output_channels := byteAt buf (tagoff + 9) }
  if m1.output_channels ≠ 3 then none
  else if m1.input_channels < 1 ∨ 4 < m1.input_channels then none
  else if m1.grid_points < 2 then none
  else some m1

/-- The grid_size accumulation loop of init_mft_tables: starting from
output_channels * table_byte_width, multiply by grid_points once per input
axis. -/
def mft_grid_size (m : skcms_MultiFunctionTable) : Nat :=
  (List.range m.input_channels).foldl (fun acc _ => acc * m.grid_points)
    (m.output_channels * m.table_byte_width)

def init_mft_tables (table_base : Nat) (max_tables_len : Nat)
    (m : skcms_MultiFunctionTable) : Option skcms_MultiFunctionTable :=
  let byte_len_per_input_table := m.input_table_size * m.table_byte_width
  let byte_len_per_output_table := m.output_table_size * m.table_byte_width
  let byte_len_all_input_tables := m.input_channels * byte_len_per_input_table
  let byte_len_all_output_tables := m.output_channels * byte_len_per_output_table
  let grid_size := mft_grid_size m
  if max_tables_len < byte_len_all_input_tables + grid_size + byte_len_all_output_tables then none
  else some { m with
    input_tables := (List.range m.input_channels).map (fun i => table_base + i * byte_len_per_input_table)
    grid := table_base + byte_len_all_input_tables
    output_tables := (List.range 3).map
      (fun i => table_base + byte_len_all_input_tables + grid_size + i * byte_len_per_output_table) }

def read_tag_mft1 (p : skcms_ICCProfile) (t : skcms_ICCTag) : Option skcms_MultiFunctionTable :=
  if t.size < 48 then none else
  match read_mft_common p.buffer t.buf emptyMFT with
  | none => none
  | some m =>
    init_mft_tables (t.buf + 48) (t.size - 48)
      { m with input_table_size := 256, output_table_size := 256, table_byte_width := 1 }

def read_tag_mft2 (p : skcms_ICCProfile) (t : skcms_ICCTag) : Option skcms_MultiFunctionTable :=
  if t.size < 52 then none else
  match read_mft_common p.buffer t.buf emptyMFT with
  | none => none
  | some m =>
    let m2 := { m with input_table_size := read_big_u16 p.buffer (t.buf + 48)
                       output_table_size := read_big_u16 p.buffer (t.buf + 50)
                       table_byte_width := 2 }
    if m2.input_table_size < 2 ∨ 4096 < m2.input_table_size ∨
       m2.output_table_size < 2 ∨ 4096 < m2.output_table_size then none
    else init_mft_tables (t.buf + 52) (t.size - 52) m2

def skcms_GetMultiFunctionTable (p : skcms_ICCProfile) : Option skcms_MultiFunctionTable :=
  match skcms_GetTagBySignature p sig_A2B0 with
  | none => none
  | some a2b =>
    if a2b.type = sig_mft1 then read_tag_mft1 p a2b
    else if a2b.type = sig_mft2 then read_tag_mft2 p a2b
    else none

/-- The header byte-swapping block of skcms_Parse: every header field decoded
from the buffer, derived-data flags still at their memset value. -/
def parse_header (buf : List Nat) : skcms_ICCProfile :=
  { emptyProfile with
    buffer := buf
    size := read_big_u32 buf 0
    cmm_type := read_big_u32 buf 4
    version := read_big_u32 buf 8
    profile_class := read_big_u32 buf 12
    data_color_space := read_big_u32 buf 16
    pcs := read_big_u32 buf 20
    creation_date_time := read_big_date_time buf 24
    signature := read_big_u32 buf 36
    platform := read_big_u32 buf 40
    flags := read_big_u32 buf 44
    device_manufacturer := read_big_u32 buf 48
    device_model := read_big_u32 buf 52
    device_attributes := read_big_u64 buf 56
    rendering_intent := read_big_u32 buf 64
    illuminant_X := read_big_fixed buf 68
    illuminant_Y := read_big_fixed buf 72
    illuminant_Z := read_big_fixed buf 76
    creator := read_big_u32 buf 80
    profile_id := (List.range 16).map (fun i => byteAt buf (84 + i))
    tag_count := read_big_u32 buf 128 }

/-- One tag-table entry passes the sanity check of the validation loop:
size >= 4 and offset + size (computed in uint64, which cannot wrap for two
uint32 summands) no larger than the declared profile size. -/
def tag_entry_ok (p : skcms_ICCProfile) (i : Nat) : Bool :=
  decide (4 ≤ tag_size_at p i) &&
  decide ((tag_off_at p i + tag_size_at p i) % 18446744073709551616 ≤ p.size)

/-- skcms_Parse. Returns the bool result together with the out-parameter
profile as left by the call (the C code fills header fields before validating,
so a failed parse can still carry decoded header fields; the derived-data
flags are only assigned on the success path). -/
def skcms_Parse (buf : List Nat) : Bool × skcms_ICCProfile :=
  if buf.length < 132 then (false, emptyProfile) else
  let p0 := parse_header buf
  if p0.signature ≠ sig_acsp ∨ buf.length < p0.size ∨
     p0.size < 132 + p0.tag_count * 12 ∨ 4 < p0.version / 16777216 then (false, p0) else
  if (1 : ℚ)/100 < |p0.illuminant_X - 9642/10000| ∨
     (1 : ℚ)/100 < |p0.illuminant_Y - 1| ∨
     (1 : ℚ)/100 < |p0.illuminant_Z - 8249/10000| then (false, p0) else
  if ¬ ((List.range p0.tag_count).all (tag_entry_ok p0)) then (false, p0) else
  let tf0 := get_transfer_function p0
  let m0 := read_to_XYZD50 p0
  (true, { p0 with has_tf := tf0.isSome, tf := tf0.getD zeroTF,
                   has_toXYZD50 := m0.isSome, toXYZD50 := m0.getD zeroMatrix })

/-- Modelled from the spec: evaluation of the 7-parameter transfer function
(TransferFunction.h is not part of src). Section 3 of the specification gives
tf(x) = sign(x)*(c*|x|+f) for |x| < d and sign(x)*((a*|x|+b)^g + e) for
|x| >= d, over the reals. -/
noncomputable def skcms_TransferFunction_eval (t : skcms_TransferFunction) (x : ℝ) : ℝ :=
  if |x| < (t.d : ℝ) then Real.sign x * ((t.c : ℝ) * |x| + (t.f : ℝ))
  else Real.sign x * (((t.a : ℝ) * |x| + (t.b : ℝ)) ^ (t.g : ℝ) + (t.e : ℝ))

def wbufC1 : List Nat :=
  [0, 0, 0, 132, 0, 0, 0, 0, 2, 0, 0, 0, 0, 0, 0, 0, 0, 0, 0, 0,
   0, 0, 0, 0, 0, 0, 0, 0, 0, 0, 0, 0, 0, 0, 0, 0, 97, 99, 115, 112,
   0, 0, 0, 0, 0, 0, 0, 0, 0, 0, 0, 0, 0, 0, 0, 0, 0, 0, 0, 0,
   0, 0, 0, 0, 0, 0, 0, 0, 0, 0, 246, 214, 0, 1, 0, 0, 0, 0, 211, 45,
   0, 0, 0, 0, 0, 0, 0, 0, 0, 0, 0, 0, 0, 0, 0, 0, 0, 0, 0, 0,
   0, 0, 0, 0, 0, 0, 0, 0, 0, 0, 0, 0, 0, 0, 0, 0, 0, 0, 0, 0,
   0, 0, 0, 0, 0, 0, 0, 0, 0, 0, 0, 0]

def wbufC3 : List Nat :=
  [0, 0, 0, 148, 0, 0, 0, 0, 2, 0, 0, 0, 0, 0, 0, 0, 0, 0, 0, 0,
   0, 0, 0, 0, 0, 0, 0, 0, 0, 0, 0, 0, 0, 0, 0, 0, 97, 99, 115, 112,
   0, 0, 0, 0, 0, 0, 0, 0, 0, 0, 0, 0, 0, 0, 0, 0, 0, 0, 0, 0,
   0, 0, 0, 0, 0, 0, 0, 0, 0, 0, 246, 214, 0, 1, 0, 0, 0, 0, 211, 45,
   0, 0, 0, 0, 0, 0, 0, 0, 0, 0, 0, 0, 0, 0, 0, 0, 0, 0, 0, 0,
   0, 0, 0, 0, 0, 0, 0, 0, 0, 0, 0, 0, 0, 0, 0, 0, 0, 0, 0, 0,
   0, 0, 0, 0, 0, 0, 0, 0, 0, 0, 0, 1, 100, 101, 115, 99, 0, 0, 0, 144,
   0, 0, 0, 4, 1, 2, 3, 4]

def wbufTRC : List Nat :=
  [0, 0, 0, 204, 0, 0, 0, 0, 2, 0, 0, 0, 0, 0, 0, 0, 0, 0, 0, 0,
   0, 0, 0, 0, 0, 0, 0, 0, 0, 0, 0, 0, 0, 0, 0, 0, 97, 99, 115, 112,
   0, 0, 0, 0, 0, 0, 0, 0, 0, 0, 0, 0, 0, 0, 0, 0, 0, 0, 0, 0,
   0, 0, 0, 0, 0, 0, 0, 0, 0, 0, 246, 214, 0, 1, 0, 0, 0, 0, 211, 45,
   0, 0, 0, 0, 0, 0, 0, 0, 0, 0, 0, 0, 0, 0, 0, 0, 0, 0, 0, 0,
   0, 0, 0, 0, 0, 0, 0, 0, 0, 0, 0, 0, 0, 0, 0, 0, 0, 0, 0, 0,
   0, 0, 0, 0, 0, 0, 0, 0, 0, 0, 0, 3, 114, 84, 82, 67, 0, 0, 0, 168,
   0, 0, 0, 12, 103, 84, 82, 67, 0, 0, 0, 180, 0, 0, 0, 12, 98, 84, 82, 67,
   0, 0, 0, 192, 0, 0, 0, 12, 99, 117, 114, 118, 0, 0, 0, 0, 0, 0, 0, 0,
   99, 117, 114, 118, 0, 0, 0, 0, 0, 0, 0, 0, 99, 117, 114, 118, 0, 0, 0, 0,
   0, 0, 0, 0]

def wbufXYZ : List Nat :=
  [0, 0, 0, 228, 0, 0, 0, 0, 2, 0, 0, 0, 0, 0, 0, 0, 0, 0, 0, 0,
   0, 0, 0, 0, 0, 0, 0, 0, 0, 0, 0, 0, 0, 0, 0, 0, 97, 99, 115, 112,
   0, 0, 0, 0, 0, 0, 0, 0, 0, 0, 0, 0, 0, 0, 0, 0, 0, 0, 0, 0,
   0, 0, 0, 0, 0, 0, 0, 0, 0, 0, 246, 214, 0, 1, 0, 0, 0, 0, 211, 45,
   0, 0, 0, 0, 0, 0, 0, 0, 0, 0, 0, 0, 0, 0, 0, 0, 0, 0, 0, 0,
   0, 0, 0, 0, 0, 0, 0, 0, 0, 0, 0, 0, 0, 0, 0, 0, 0, 0, 0, 0,
   0, 0, 0, 0, 0, 0, 0, 0, 0, 0, 0, 3, 114, 88, 89, 90, 0, 0, 0, 168,
   0, 0, 0, 20, 103, 88, 89, 90, 0, 0, 0, 188, 0, 0, 0, 20, 98, 88, 89, 90,
   0, 0, 0, 208, 0, 0, 0, 20, 88, 89, 90, 32, 0, 0, 0, 0, 0, 1, 0, 0,
   0, 0, 128, 0, 0, 0, 0, 1, 88, 89, 90, 32, 0, 0, 0, 0, 0, 0, 0, 2,
   0, 1, 0, 0, 0, 0, 0, 3, 88, 89, 90, 32, 0, 0, 0, 0, 0, 0, 0, 4,
   0, 0, 0, 5, 0, 1, 0, 0]

def wbufMFT : List Nat :=
  [0, 0, 0, 0, 0, 0, 0, 0, 0, 0, 0, 0, 0, 0, 0, 0, 0, 0, 0, 0,
   0, 0, 0, 0, 0, 0, 0, 0, 0, 0, 0, 0, 0, 0, 0, 0, 0, 0, 0, 0,
   0, 0, 0, 0, 0, 0, 0, 0, 0, 0, 0, 0, 0, 0, 0, 0, 0, 0, 0, 0,
   0, 0, 0, 0, 0, 0, 0, 0, 0, 0, 0, 0, 0, 0, 0, 0, 0, 0, 0, 0,
   0, 0, 0, 0, 0, 0, 0, 0, 0, 0, 0, 0, 0, 0, 0, 0, 0, 0, 0, 0,
   0, 0, 0, 0, 0, 0, 0, 0, 0, 0, 0, 0, 0, 0, 0, 0, 0, 0, 0, 0,
   0, 0, 0, 0, 0, 0, 0, 0, 0, 0, 0, 0, 65, 50, 66, 48, 0, 0, 0, 144,
   0, 0, 4, 54, 109, 102, 116, 49, 0, 0, 0, 0, 1, 3, 2, 0, 0, 0, 0, 0,
   0, 0, 0, 0, 0, 0, 0, 0, 0, 0, 0, 0, 0, 0, 0, 0, 0, 0, 0, 0,
   0, 0, 0, 0, 0, 0, 0, 0, 0, 0, 0, 0]

/-- A profile record that carries wbufMFT directly (only buffer and tag_count
matter to the tag lookup functions). -/
def profMFT : skcms_ICCProfile := { emptyProfile with buffer := wbufMFT, tag_count := 1 }

/-- A profile with an empty tag table, for exercising skcms_GetTagByIndex at
idx = tag_count. -/
def profNoTags : skcms_ICCProfile := { emptyProfile with buffer := wbufC1, tag_count := 0 }

def sentinelTag : skcms_ICCTag := { signature := 7, type := 7, size := 7, buf := 7 }

/-- All five header validations of skcms_Parse, as one predicate: buffer at
least 132 bytes, acsp signature, declared size within the buffer and covering
the tag table, major version at most 4, and D50 illuminant within 0.01. -/
def header_checks_pass (buf : List Nat) : Prop :=
  132 ≤ buf.length ∧
  (parse_header buf).signature = sig_acsp ∧
  (parse_header buf).size ≤ buf.length ∧
  132 + (parse_header buf).tag_count * 12 ≤ (parse_header buf).size ∧
  (parse_header buf).version / 16777216 ≤ 4 ∧
  |(parse_header buf).illuminant_X - 9642/10000| ≤ 1/100 ∧
  |(parse_header buf).illuminant_Y - 1| ≤ 1/100 ∧
  |(parse_header buf).illuminant_Z - 8249/10000| ≤ 1/100

/-- wbufC3 with the single tag-table entry declaring size 3 (< 4). -/
def wbufC3bad : List Nat := wbufC3.take 140 ++ [0, 0, 0, 3] ++ wbufC3.drop 144

/-- A curv tag with value_count 0. -/
def dCurv0 : List Nat := [99, 117, 114, 118, 0, 0, 0, 0, 0, 0, 0, 0]

/-- A curv tag with value_count 1 and 16-bit entry 512 (gamma 2). -/
def dCurv1 : List Nat := [99, 117, 114, 118, 0, 0, 0, 0, 0, 0, 0, 1, 2, 0]

/-- A curv tag with value_count 2. -/
def dCurvN : List Nat := [99, 117, 114, 118, 0, 0, 0, 0, 0, 0, 0, 2, 0, 0, 255, 255]

/-- A para tag of function type 0 with g = 1.0 in s15.16. -/
def dParaG : List Nat := [112, 97, 114, 97, 0, 0, 0, 0, 0, 0, 0, 0, 0, 1, 0, 0]

/-- A para tag declaring the invalid function type 5. -/
def dParaBad : List Nat := [112, 97, 114, 97, 0, 0, 0, 0, 0, 5, 0, 0, 0, 1, 0, 0]

/-- A para tag of function type 1 (GAB) with g = 1, a = 1, b = 0.5. -/
def dParaGAB : List Nat :=
  [112, 97, 114, 97, 0, 0, 0, 0, 0, 1, 0, 0, 0, 1, 0, 0, 0, 1, 0, 0, 0, 0, 128, 0]

/-- The multi-function table skcms_GetMultiFunctionTable extracts from
profMFT (input_channels 1, grid_points 2, mft1 layout at offset 144). -/
def mftW : skcms_MultiFunctionTable :=
  { matrix := zeroMatrix
    input_channels := 1
    grid_points := 2
    output_channels := 3
    input_table_size := 256
    output_table_size := 256
    table_byte_width := 1
    input_tables := [192]
    grid := 448
    output_tables := [454, 710, 966] }

/-! Helper lemmas (shared across the claim theorems below). -/

lemma sign_mul_abs_real (x : ℝ) : Real.sign x * |x| = x := by
  rcases lt_trichotomy x 0 with hx | hx | hx
  · rw [Real.sign_of_neg hx, abs_of_neg hx]; ring
  · simp [hx]
  · rw [Real.sign_of_pos hx, abs_of_pos hx]; ring

lemma foldl_mul_range (g i n : Nat) :
    (List.range n).foldl (fun acc _ => acc * g) i = i * g ^ n := by
  induction n generalizing i with
  | zero => simp
  | succ k ih =>
    rw [List.range_succ, List.foldl_append]
    simp only [List.foldl_cons, List.foldl_nil, ih, pow_succ]
    ring

lemma illumX_ok : |(mkRat 63190 65536 : ℚ) - 9642/10000| ≤ 1/100 := by
  rw [Rat.mkRat_eq_div, abs_sub_le_iff]
  constructor <;> norm_num

lemma illumY_ok : |(1 : ℚ) - 1| ≤ 1/100 := by norm_num

lemma illumZ_ok : |(mkRat 54061 65536 : ℚ) - 8249/10000| ≤ 1/100 := by
  rw [Rat.mkRat_eq_div, abs_sub_le_iff]
  constructor <;> norm_num

/-- All header checks of skcms_Parse pass, so control reaches the tag loop and
beyond; with the tag loop passing too, the parse succeeds. -/
lemma skcms_Parse_fst_true (buf : List Nat)
    (h1 : 132 ≤ buf.length)
    (h2 : (parse_header buf).signature = sig_acsp)
    (h3 : (parse_header buf).size ≤ buf.length)
    (h4 : 132 + (parse_header buf).tag_count * 12 ≤ (parse_header buf).size)
    (h5 : (parse_header buf).version / 16777216 ≤ 4)
    (h6 : |(parse_header buf).illuminant_X - 9642/10000| ≤ 1/100)
    (h7 : |(parse_header buf).illuminant_Y - 1| ≤ 1/100)
    (h8 : |(parse_header buf).illuminant_Z - 8249/10000| ≤ 1/100)
    (h9 : (List.range (parse_header buf).tag_count).all (tag_entry_ok (parse_header buf)) = true) :
    (skcms_Parse buf).1 = true := by
  simp only [skcms_Parse]
  rw [if_neg (by omega : ¬ buf.length < 132)]
  rw [if_neg ?hc2]
  case hc2 =>
    rintro (hc | hc | hc | hc)
    · exact hc h2
    · omega
    · omega
    · omega
  rw [if_neg ?hc3]
  case hc3 =>
    rintro (hc | hc | hc)
    · exact (not_lt.2 h6) hc
    · exact (not_lt.2 h7) hc
    · exact (not_lt.2 h8) hc
  rw [if_neg (not_not_intro h9)]

lemma skcms_Parse_pair_of_fst (buf : List Nat) (h : (skcms_Parse buf).1 = true) :
    skcms_Parse buf = (true, (skcms_Parse buf).2) := by
  rw [← h]

set_option maxRecDepth 1000000 in
lemma parse_wbufC1_fst : (skcms_Parse wbufC1).1 = true :=
  skcms_Parse_fst_true wbufC1 (by decide) (by decide) (by decide) (by decide) (by decide)
    (by rw [(by decide : (parse_header wbufC1).illuminant_X = mkRat 63190 65536)]; exact illumX_ok)
    (by rw [(by decide : (parse_header wbufC1).illuminant_Y = 1)]; exact illumY_ok)
    (by rw [(by decide : (parse_header wbufC1).illuminant_Z = mkRat 54061 65536)]; exact illumZ_ok)
    (by decide)

/-- C8: skcms_Parse is all-or-nothing: whenever it returns false, the
derived-data flags of the output profile (has_tf, has_toXYZD50, has_A2B) are
all false — the record is zeroed up front and the flags are only assigned
after all validation passes. -/
theorem skcms_Parse_false_empty_flags (buf : List Nat) (p : skcms_ICCProfile)
    (h : skcms_Parse buf = (false, p)) :
    p.has_tf = false ∧ p.has_toXYZD50 = false ∧ p.has_A2B = false := by
  simp only [skcms_Parse] at h
  split at h
  · injection h with h1 h2
    subst h2
    exact ⟨rfl, rfl, rfl⟩
  · split at h
    · injection h with h1 h2
      subst h2
      exact ⟨rfl, rfl, rfl⟩
    · split at h
      · injection h with h1 h2
        subst h2
        exact ⟨rfl, rfl, rfl⟩
      · split at h
        · injection h with h1 h2
          subst h2
          exact ⟨rfl, rfl, rfl⟩
        · injection h with h1 h2
          cases h1

/-- Witness for C8 at the one-byte buffer 0x42 used by the repository's own
test: the parse fails and every derived-data flag is false. -/
theorem skcms_Parse_false_empty_flags_witness :
    (skcms_Parse [66]).2.has_tf = false ∧
    (skcms_Parse [66]).2.has_toXYZD50 = false ∧
    (skcms_Parse [66]).2.has_A2B = false :=
  skcms_Parse_false_empty_flags [66] (skcms_Parse [66]).2 (by rfl)

/-- C1: skcms_Parse returns true only if the buffer is at least 132 bytes,
the signature at offset 36 is acsp, the declared size fits the buffer and
covers the tag table, the major version is at most 4, and the header
illuminant is within 0.01 of D50 componentwise. -/
theorem skcms_Parse_true_header_valid (buf : List Nat)
    (h : (skcms_Parse buf).1 = true) :
    132 ≤ buf.length ∧
    read_big_u32 buf 36 = sig_acsp ∧
    read_big_u32 buf 0 ≤ buf.length ∧
    132 + read_big_u32 buf 128 * 12 ≤ read_big_u32 buf 0 ∧
    read_big_u32 buf 8 / 16777216 ≤ 4 ∧
    |read_big_fixed buf 68 - 9642/10000| ≤ 1/100 ∧
    |read_big_fixed buf 72 - 1| ≤ 1/100 ∧
    |read_big_fixed buf 76 - 8249/10000| ≤ 1/100 := by
  simp only [skcms_Parse] at h
  split at h
  · simp at h
  · split at h
    · simp at h
    · split at h
      · simp at h
      · split at h
        · simp at h
        · rename_i h1 h2 h3 h4
          push_neg at h1 h2 h3
          simp only [parse_header, emptyProfile] at h2 h3
          refine ⟨by omega, h2.1, h2.2.1, h2.2.2.1, h2.2.2.2, h3.1, h3.2.1, h3.2.2⟩

/-- Witness for C1: a minimal 132-byte valid profile parses successfully
and all the header conditions hold of it. -/
theorem skcms_Parse_true_header_valid_witness :
    132 ≤ wbufC1.length ∧
    read_big_u32 wbufC1 36 = sig_acsp ∧
    read_big_u32 wbufC1 0 ≤ wbufC1.length ∧
    132 + read_big_u32 wbufC1 128 * 12 ≤ read_big_u32 wbufC1 0 ∧
    read_big_u32 wbufC1 8 / 16777216 ≤ 4 ∧
    |read_big_fixed wbufC1 68 - 9642/10000| ≤ 1/100 ∧
    |read_big_fixed wbufC1 72 - 1| ≤ 1/100 ∧
    |read_big_fixed wbufC1 76 - 8249/10000| ≤ 1/100 :=
  skcms_Parse_true_header_valid wbufC1 parse_wbufC1_fst

set_option maxRecDepth 1000000 in
/-- C9 (code evidence): skcms_GetTagByIndex guards with idx > tag_count, not
idx >= tag_count, so at idx = tag_count — an out-of-range index — it fills
the output tag from a tag-table entry one past the table instead of leaving
the tag unmodified. profNoTags has tag_count = 0, yet index 0 overwrites the
sentinel. -/
theorem skcms_GetTagByIndex_out_of_range_modifies :
    profNoTags.tag_count ≤ 0 ∧
    skcms_GetTagByIndex profNoTags 0 sentinelTag ≠ sentinelTag := by decide

lemma byteAt_lt (buf : List Nat) (i : Nat) : byteAt buf i < 256 :=
  Nat.mod_lt _ (by norm_num)

lemma read_big_u32_lt (buf : List Nat) (p : Nat) : read_big_u32 buf p < 4294967296 := by
  have h0 := byteAt_lt buf p
  have h1 := byteAt_lt buf (p+1)
  have h2 := byteAt_lt buf (p+2)
  have h3 := byteAt_lt buf (p+3)
  unfold read_big_u32
  omega

/-- The uint64 sum in the tag-entry check cannot wrap, so the check is the
exact-arithmetic condition. -/
lemma tag_entry_ok_iff (p : skcms_ICCProfile) (i : Nat) :
    tag_entry_ok p i = true ↔
      (4 ≤ tag_size_at p i ∧ tag_off_at p i + tag_size_at p i ≤ p.size) := by
  have ho := read_big_u32_lt p.buffer (132 + 12 * i + 4)
  have hs := read_big_u32_lt p.buffer (132 + 12 * i + 8)
  unfold tag_entry_ok
  rw [Nat.mod_eq_of_lt (by simp only [tag_off_at, tag_size_at]; omega)]
  simp [Bool.and_eq_true, decide_eq_true_eq]

/-- C3: skcms_Parse returns false whenever a tag-table entry has size < 4 or
offset + size (an exact sum, no 32-bit wraparound) past the declared profile
size; with the header checks passed and every entry valid, the parse
succeeds. -/
theorem skcms_Parse_tag_table_check (buf : List Nat) :
    (∀ i, i < (parse_header buf).tag_count →
      (tag_size_at (parse_header buf) i < 4 ∨
       (parse_header buf).size < tag_off_at (parse_header buf) i + tag_size_at (parse_header buf) i) →
      (skcms_Parse buf).1 = false) ∧
    (header_checks_pass buf →
      (∀ i, i < (parse_header buf).tag_count →
        4 ≤ tag_size_at (parse_header buf) i ∧
        tag_off_at (parse_header buf) i + tag_size_at (parse_header buf) i ≤ (parse_header buf).size) →
      (skcms_Parse buf).1 = true) := by
  constructor
  · intro i hi hbad
    simp only [skcms_Parse]
    split
    · rfl
    · split
      · rfl
      · split
        · rfl
        · split
          · rfl
          · rename_i h4
            exfalso
            have hall : (List.range (parse_header buf).tag_count).all
                (tag_entry_ok (parse_header buf)) = true := not_not.mp h4
            rw [List.all_eq_true] at hall
            have hok := hall i (List.mem_range.mpr hi)
            rw [tag_entry_ok_iff] at hok
            rcases hbad with hb | hb
            · omega
            · omega
  · intro hp hgood
    obtain ⟨h1, h2, h3, h4, h5, h6, h7, h8⟩ := hp
    refine skcms_Parse_fst_true buf h1 h2 h3 h4 h5 h6 h7 h8 ?_
    rw [List.all_eq_true]
    intro i hi
    exact (tag_entry_ok_iff _ _).mpr (hgood i (List.mem_range.mp hi))

set_option maxRecDepth 1000000 in
/-- Witness for C3: a profile whose single tag entry declares size 3 fails to
parse, and one whose single entry is valid parses successfully. -/
theorem skcms_Parse_tag_table_check_witness :
    (skcms_Parse wbufC3bad).1 = false ∧ (skcms_Parse wbufC3).1 = true :=
  ⟨(skcms_Parse_tag_table_check wbufC3bad).1 0 (by decide) (by decide),
   (skcms_Parse_tag_table_check wbufC3).2
     ⟨by decide, by decide, by decide, by decide, by decide,
      by rw [(by decide : (parse_header wbufC3).illuminant_X = mkRat 63190 65536)]; exact illumX_ok,
      by rw [(by decide : (parse_header wbufC3).illuminant_Y = 1)]; exact illumY_ok,
      by rw [(by decide : (parse_header wbufC3).illuminant_Z = mkRat 54061 65536)]; exact illumZ_ok⟩
     (fun i hi => by
       have htc : (parse_header wbufC3).tag_count = 1 := by decide
       rw [htc] at hi
       have h0 : i = 0 := by omega
       subst h0
       exact ⟨by decide, by decide⟩)⟩

lemma eval_identity (x : ℝ) :
    skcms_TransferFunction_eval ⟨1, 1, 0, 0, 0, 0, 0⟩ x = x := by
  unfold skcms_TransferFunction_eval
  dsimp only
  rw [if_neg (by push_cast; exact not_lt.2 (abs_nonneg x))]
  push_cast
  rw [one_mul, add_zero, add_zero, Real.rpow_one]
  exact sign_mul_abs_real x

lemma eval_gamma (q : ℚ) (x : ℝ) (hx : 0 < x) :
    skcms_TransferFunction_eval ⟨q, 1, 0, 0, 0, 0, 0⟩ x = x ^ (q : ℝ) := by
  unfold skcms_TransferFunction_eval
  dsimp only
  rw [if_neg (by push_cast; exact not_lt.2 (abs_nonneg x))]
  push_cast
  rw [one_mul, add_zero, add_zero, Real.sign_of_pos hx, abs_of_pos hx, one_mul]

/-- C4: a curv tag too small for its sample count fails; value_count 0 gives
the identity parametric curve (evaluating to x); value_count 1 gives the pure
gamma curve with g the 16-bit big-endian value over 256 (evaluating to
x^(u/256)); value_count >= 2 gives a tabulated curve of that many 16-bit
entries at offset 12 of the tag data. -/
theorem read_curve_curv_spec :
    (∀ d size, size < 12 + read_big_u32 d 8 * 2 → read_curve_curv d size = none) ∧
    (∀ d size, 12 + read_big_u32 d 8 * 2 ≤ size → read_big_u32 d 8 = 0 →
      read_curve_curv d size = some ⟨⟨1, 1, 0, 0, 0, 0, 0⟩, none, 0⟩ ∧
      ∀ x : ℝ, skcms_TransferFunction_eval ⟨1, 1, 0, 0, 0, 0, 0⟩ x = x) ∧
    (∀ d size, 12 + read_big_u32 d 8 * 2 ≤ size → read_big_u32 d 8 = 1 →
      read_curve_curv d size =
        some ⟨⟨(read_big_u16 d 12 : ℚ) / 256, 1, 0, 0, 0, 0, 0⟩, none, 0⟩ ∧
      ∀ x : ℝ, 0 < x →
        skcms_TransferFunction_eval ⟨(read_big_u16 d 12 : ℚ) / 256, 1, 0, 0, 0, 0, 0⟩ x =
          x ^ ((read_big_u16 d 12 : ℝ) / 256)) ∧
    (∀ d size, 12 + read_big_u32 d 8 * 2 ≤ size → 2 ≤ read_big_u32 d 8 →
      read_curve_curv d size = some ⟨zeroTF, some 12, read_big_u32 d 8⟩) := by
  refine ⟨?_, ?_, ?_, ?_⟩
  · intro d size h
    simp only [read_curve_curv]
    split_ifs <;> rfl
  · intro d size hsz hvc
    refine ⟨?_, fun x => eval_identity x⟩
    simp only [read_curve_curv]
    rw [if_neg (by omega), if_neg (by omega), if_pos hvc]
  · intro d size hsz hvc
    constructor
    · simp only [read_curve_curv]
      rw [if_neg (by omega), if_neg (by omega), if_neg (by omega), if_pos hvc]
    · intro x hx
      rw [eval_gamma _ x hx]
      congr 1
      push_cast
      ring
  · intro d size hsz hvc
    simp only [read_curve_curv]
    rw [if_neg (by omega), if_neg (by omega), if_neg (by omega), if_neg (by omega)]

set_option maxRecDepth 1000000 in
/-- Witness for C4 at concrete curv tags: a truncated tag fails; empty,
one-entry and two-entry tables produce the identity curve, the gamma curve
and a tabulated curve respectively. -/
theorem read_curve_curv_spec_witness :
    read_curve_curv dCurv1 5 = none ∧
    read_curve_curv dCurv0 12 = some ⟨⟨1, 1, 0, 0, 0, 0, 0⟩, none, 0⟩ ∧
    read_curve_curv dCurv1 14 =
      some ⟨⟨(read_big_u16 dCurv1 12 : ℚ) / 256, 1, 0, 0, 0, 0, 0⟩, none, 0⟩ ∧
    read_curve_curv dCurvN 16 = some ⟨zeroTF, some 12, read_big_u32 dCurvN 8⟩ :=
  ⟨read_curve_curv_spec.1 dCurv1 5 (by decide),
   (read_curve_curv_spec.2.1 dCurv0 12 (by decide) (by decide)).1,
   (read_curve_curv_spec.2.2.1 dCurv1 14 (by decide) (by decide)).1,
   read_curve_curv_spec.2.2.2 dCurvN 16 (by decide) (by decide)⟩

/-- C5: a para tag parses only for function types 0..4 with enough bytes for
that type's s15.16 parameter count; unspecified parameters default to 0 with
a defaulting to 1; types 1 (GAB) and 2 (GABC) reject a = 0 and otherwise set
d = -b/a, and type 2 also sets f = e. -/
theorem read_curve_para_spec :
    (∀ d size, size < 12 → read_curve_para d size = none) ∧
    (∀ d size, 4 < read_big_u16 d 8 → read_curve_para d size = none) ∧
    (∀ d size, read_big_u16 d 8 ≤ 4 → size < 12 + curve_bytes (read_big_u16 d 8) →
      read_curve_para d size = none) ∧
    (∀ d size, (read_big_u16 d 8 = 1 ∨ read_big_u16 d 8 = 2) →
      12 + curve_bytes (read_big_u16 d 8) ≤ size → read_big_fixed d 16 = 0 →
      read_curve_para d size = none) ∧
    (∀ d size, read_big_u16 d 8 = 0 → 16 ≤ size →
      read_curve_para d size =
        some ⟨⟨read_big_fixed d 12, 1, 0, 0, 0, 0, 0⟩, none, 0⟩) ∧
    (∀ d size, read_big_u16 d 8 = 1 → 24 ≤ size → read_big_fixed d 16 ≠ 0 →
      read_curve_para d size =
        some ⟨⟨read_big_fixed d 12, read_big_fixed d 16, read_big_fixed d 20, 0,
               -read_big_fixed d 20 / read_big_fixed d 16, 0, 0⟩, none, 0⟩) ∧
    (∀ d size, read_big_u16 d 8 = 2 → 28 ≤ size → read_big_fixed d 16 ≠ 0 →
      read_curve_para d size =
        some ⟨⟨read_big_fixed d 12, read_big_fixed d 16, read_big_fixed d 20, 0,
               -read_big_fixed d 20 / read_big_fixed d 16,
               read_big_fixed d 24, read_big_fixed d 24⟩, none, 0⟩) ∧
    (∀ d size, read_big_u16 d 8 = 3 → 32 ≤ size →
      read_curve_para d size =
        some ⟨⟨read_big_fixed d 12, read_big_fixed d 16, read_big_fixed d 20,
               read_big_fixed d 24, read_big_fixed d 28, 0, 0⟩, none, 0⟩) ∧
    (∀ d size, read_big_u16 d 8 = 4 → 40 ≤ size →
      read_curve_para d size =
        some ⟨⟨read_big_fixed d 12, read_big_fixed d 16, read_big_fixed d 20,
               read_big_fixed d 24, read_big_fixed d 28,
               read_big_fixed d 32, read_big_fixed d 36⟩, none, 0⟩) := by
  refine ⟨?_, ?_, ?_, ?_, ?_, ?_, ?_, ?_, ?_⟩
  · intro d size h
    simp only [read_curve_para]
    rw [if_pos h]
  · intro d size h
    simp only [read_curve_para]
    split_ifs <;> rfl
  · intro d size hft hsz
    simp only [read_curve_para]
    split_ifs <;> rfl
  · intro d size hft hsz ha
    rcases hft with hft | hft <;>
      simp only [read_curve_para, hft, curve_bytes] at hsz ⊢ <;>
      split_ifs <;> first | rfl | omega | exact absurd ha ‹_› | exact absurd ‹_› ha | exact ha | exact ‹False›.elim
  · intro d size hft hsz
    simp only [read_curve_para, hft, curve_bytes]
    split_ifs <;> first | rfl | omega
  · intro d size hft hsz ha
    simp only [read_curve_para, hft, curve_bytes]
    split_ifs <;> first | rfl | omega | exact absurd ha ‹_› | exact absurd ‹_› ha | exact ha | exact ‹False›.elim
  · intro d size hft hsz ha
    simp only [read_curve_para, hft, curve_bytes]
    split_ifs <;> first | rfl | omega | exact absurd ha ‹_› | exact absurd ‹_› ha | exact ha | exact ‹False›.elim
  · intro d size hft hsz
    simp only [read_curve_para, hft, curve_bytes]
    split_ifs <;> first | rfl | omega | exact ‹False›.elim
  · intro d size hft hsz
    simp only [read_curve_para, hft, curve_bytes]
    split_ifs <;> first | rfl | omega | exact ‹False›.elim

set_option maxRecDepth 1000000 in
/-- Witness for C5 at concrete para tags: function type 5 is rejected, type 0
yields the pure-gamma parameters, and type 1 with a = 1, b = 0.5 yields the
GAB parameters with d = -b/a. -/
theorem read_curve_para_spec_witness :
    read_curve_para dParaBad 16 = none ∧
    read_curve_para dParaG 16 =
      some ⟨⟨read_big_fixed dParaG 12, 1, 0, 0, 0, 0, 0⟩, none, 0⟩ ∧
    read_curve_para dParaGAB 24 =
      some ⟨⟨read_big_fixed dParaGAB 12, read_big_fixed dParaGAB 16,
             read_big_fixed dParaGAB 20, 0,
             -read_big_fixed dParaGAB 20 / read_big_fixed dParaGAB 16, 0, 0⟩, none, 0⟩ :=
  ⟨read_curve_para_spec.2.1 dParaBad 16 (by decide),
   read_curve_para_spec.2.2.2.2.1 dParaG 16 (by decide) (by decide),
   read_curve_para_spec.2.2.2.2.2.1 dParaGAB 24 (by decide) (by decide) (by decide)⟩

lemma get_transfer_function_update (p0 : skcms_ICCProfile) (hf : Bool)
    (t : skcms_TransferFunction) (hx : Bool) (m : skcms_Matrix3x3) :
    get_transfer_function
      { p0 with has_tf := hf, tf := t, has_toXYZD50 := hx, toXYZD50 := m } =
    get_transfer_function p0 := rfl

/-- get_transfer_function succeeds exactly when all three TRC tags are
present, each reads as a parametric (table-free) curve, and the three
parametric records agree. -/
lemma get_transfer_function_isSome_iff (q : skcms_ICCProfile) :
    (get_transfer_function q).isSome = true ↔
      ∃ rT gT bT rc gc bc,
        skcms_GetTagBySignature q sig_rTRC = some rT ∧
        skcms_GetTagBySignature q sig_gTRC = some gT ∧
        skcms_GetTagBySignature q sig_bTRC = some bT ∧
        read_curve (tag_bytes q rT) rT.size = some rc ∧
        read_curve (tag_bytes q gT) gT.size = some gc ∧
        read_curve (tag_bytes q bT) bT.size = some bc ∧
        rc.table = none ∧ gc.table = none ∧ bc.table = none ∧
        rc.parametric = gc.parametric ∧ rc.parametric = bc.parametric := by
  constructor
  · intro h
    unfold get_transfer_function at h
    cases h1 : skcms_GetTagBySignature q sig_rTRC with
    | none => simp only [h1] at h; simp at h
    | some rT =>
    simp only [h1] at h
    cases h2 : skcms_GetTagBySignature q sig_gTRC with
    | none => simp only [h2] at h; simp at h
    | some gT =>
    simp only [h2] at h
    cases h3 : skcms_GetTagBySignature q sig_bTRC with
    | none => simp only [h3] at h; simp at h
    | some bT =>
    simp only [h3] at h
    cases h4 : read_curve (tag_bytes q rT) rT.size with
    | none => simp only [h4] at h; simp at h
    | some rc =>
    simp only [h4] at h
    split at h
    · simp at h
    · rename_i ht1
      cases h5 : read_curve (tag_bytes q gT) gT.size with
      | none => simp only [h5] at h; simp at h
      | some gc =>
      simp only [h5] at h
      split at h
      · simp at h
      · rename_i ht2
        cases h6 : read_curve (tag_bytes q bT) bT.size with
        | none => simp only [h6] at h; simp at h
        | some bc =>
        simp only [h6] at h
        split at h
        · simp at h
        · rename_i ht3
          split at h
          · rename_i hpar
            exact ⟨rT, gT, bT, rc, gc, bc, rfl, rfl, rfl, h4, h5, h6,
              Option.not_isSome_iff_eq_none.mp (by simpa using ht1),
              Option.not_isSome_iff_eq_none.mp (by simpa using ht2),
              Option.not_isSome_iff_eq_none.mp (by simpa using ht3), hpar.1, hpar.2⟩
          · simp at h
  · rintro ⟨rT, gT, bT, rc, gc, bc, h1, h2, h3, h4, h5, h6, t1, t2, t3, e1, e2⟩
    unfold get_transfer_function
    simp [h1, h2, h3, h4, h5, h6, t1, t2, t3, e1, e2]
    exact e1.symm.trans e2

/-- C2: after a successful parse the has_tf flag is true exactly when all of
rTRC, gTRC, bTRC are present, each parses as a para or curv curve resolving
to parametric (table-free) form, and the three parametric records are equal;
the parse does not copy or alter the buffer the curves point into. -/
theorem skcms_Parse_has_tf_iff (buf : List Nat) (p : skcms_ICCProfile)
    (h : skcms_Parse buf = (true, p)) :
    p.buffer = buf ∧
    (p.has_tf = true ↔
      ∃ rT gT bT rc gc bc,
        skcms_GetTagBySignature p sig_rTRC = some rT ∧
        skcms_GetTagBySignature p sig_gTRC = some gT ∧
        skcms_GetTagBySignature p sig_bTRC = some bT ∧
        read_curve (tag_bytes p rT) rT.size = some rc ∧
        read_curve (tag_bytes p gT) gT.size = some gc ∧
        read_curve (tag_bytes p bT) bT.size = some bc ∧
        rc.table = none ∧ gc.table = none ∧ bc.table = none ∧
        rc.parametric = gc.parametric ∧ rc.parametric = bc.parametric) := by
  simp only [skcms_Parse] at h
  split at h
  · injection h with h1 h2; cases h1
  · split at h
    · injection h with h1 h2; cases h1
    · split at h
      · injection h with h1 h2; cases h1
      · split at h
        · injection h with h1 h2; cases h1
        · injection h with h1 h2
          subst h2
          exact ⟨rfl, get_transfer_function_isSome_iff _⟩

set_option maxRecDepth 1000000 in
lemma parse_wbufTRC_fst : (skcms_Parse wbufTRC).1 = true :=
  skcms_Parse_fst_true wbufTRC (by decide) (by decide) (by decide) (by decide) (by decide)
    (by rw [(by decide : (parse_header wbufTRC).illuminant_X = mkRat 63190 65536)]; exact illumX_ok)
    (by rw [(by decide : (parse_header wbufTRC).illuminant_Y = 1)]; exact illumY_ok)
    (by rw [(by decide : (parse_header wbufTRC).illuminant_Z = mkRat 54061 65536)]; exact illumZ_ok)
    (by decide)

/-- Witness for C2: a profile carrying three curv TRC tags that all decode to
the identity parametric curve parses successfully, keeps its buffer, and its
has_tf flag matches the three-way condition. -/
theorem skcms_Parse_has_tf_iff_witness :
    (skcms_Parse wbufTRC).2.buffer = wbufTRC ∧
    ((skcms_Parse wbufTRC).2.has_tf = true ↔
      ∃ rT gT bT rc gc bc,
        skcms_GetTagBySignature (skcms_Parse wbufTRC).2 sig_rTRC = some rT ∧
        skcms_GetTagBySignature (skcms_Parse wbufTRC).2 sig_gTRC = some gT ∧
        skcms_GetTagBySignature (skcms_Parse wbufTRC).2 sig_bTRC = some bT ∧
        read_curve (tag_bytes (skcms_Parse wbufTRC).2 rT) rT.size = some rc ∧
        read_curve (tag_bytes (skcms_Parse wbufTRC).2 gT) gT.size = some gc ∧
        read_curve (tag_bytes (skcms_Parse wbufTRC).2 bT) bT.size = some bc ∧
        rc.table = none ∧ gc.table = none ∧ bc.table = none ∧
        rc.parametric = gc.parametric ∧ rc.parametric = bc.parametric) :=
  skcms_Parse_has_tf_iff wbufTRC (skcms_Parse wbufTRC).2
    (skcms_Parse_pair_of_fst wbufTRC parse_wbufTRC_fst)

lemma read_tag_xyz_eq_some (q : skcms_ICCProfile) (t : skcms_ICCTag) (v : ℚ × ℚ × ℚ) :
    read_tag_xyz q t = some v ↔
      t.type = sig_XYZ ∧ 20 ≤ t.size ∧
      v = (read_big_fixed q.buffer (t.buf + 8),
           read_big_fixed q.buffer (t.buf + 12),
           read_big_fixed q.buffer (t.buf + 16)) := by
  unfold read_tag_xyz
  split_ifs with hc
  · simp only [Option.some_inj]
    constructor
    · intro hv
      exact ⟨hc.1, hc.2, hv.symm⟩
    · rintro ⟨-, -, hv⟩
      exact hv.symm
  · constructor
    · intro hv
      cases hv
    · rintro ⟨ht, hs, -⟩
      exact absurd ⟨ht, hs⟩ hc

lemma read_to_XYZD50_some_iff (q : skcms_ICCProfile) (m : skcms_Matrix3x3) :
    read_to_XYZD50 q = some m ↔
      ∃ rT gT bT,
        skcms_GetTagBySignature q sig_rXYZ = some rT ∧
        skcms_GetTagBySignature q sig_gXYZ = some gT ∧
        skcms_GetTagBySignature q sig_bXYZ = some bT ∧
        rT.type = sig_XYZ ∧ 20 ≤ rT.size ∧
        gT.type = sig_XYZ ∧ 20 ≤ gT.size ∧
        bT.type = sig_XYZ ∧ 20 ≤ bT.size ∧
        m = { m00 := read_big_fixed q.buffer (rT.buf + 8)
              m01 := read_big_fixed q.buffer (gT.buf + 8)
              m02 := read_big_fixed q.buffer (bT.buf + 8)
              m10 := read_big_fixed q.buffer (rT.buf + 12)
              m11 := read_big_fixed q.buffer (gT.buf + 12)
              m12 := read_big_fixed q.buffer (bT.buf + 12)
              m20 := read_big_fixed q.buffer (rT.buf + 16)
              m21 := read_big_fixed q.buffer (gT.buf + 16)
              m22 := read_big_fixed q.buffer (bT.buf + 16) } := by
  constructor
  · intro h
    unfold read_to_XYZD50 at h
    cases h1 : skcms_GetTagBySignature q sig_rXYZ with
    | none => simp only [h1] at h; exact Option.noConfusion h
    | some rT =>
    simp only [h1] at h
    cases h2 : skcms_GetTagBySignature q sig_gXYZ with
    | none => simp only [h2] at h; exact Option.noConfusion h
    | some gT =>
    simp only [h2] at h
    cases h3 : skcms_GetTagBySignature q sig_bXYZ with
    | none => simp only [h3] at h; exact Option.noConfusion h
    | some bT =>
    simp only [h3] at h
    cases hr : read_tag_xyz q rT with
    | none => simp only [hr] at h; exact Option.noConfusion h
    | some rv =>
    simp only [hr] at h
    cases hg : read_tag_xyz q gT with
    | none => simp only [hg] at h; exact Option.noConfusion h
    | some gv =>
    simp only [hg] at h
    cases hb : read_tag_xyz q bT with
    | none => simp only [hb] at h; exact Option.noConfusion h
    | some bv =>
    simp only [hb, Option.some_inj] at h
    obtain ⟨rty, rsz, rv_eq⟩ := (read_tag_xyz_eq_some q rT rv).mp hr
    obtain ⟨gty, gsz, gv_eq⟩ := (read_tag_xyz_eq_some q gT gv).mp hg
    obtain ⟨bty, bsz, bv_eq⟩ := (read_tag_xyz_eq_some q bT bv).mp hb
    subst rv_eq
    subst gv_eq
    subst bv_eq
    exact ⟨rT, gT, bT, rfl, rfl, rfl, rty, rsz, gty, gsz, bty, bsz, h.symm⟩
  · rintro ⟨rT, gT, bT, h1, h2, h3, rty, rsz, gty, gsz, bty, bsz, hm⟩
    subst hm
    unfold read_to_XYZD50
    have hr := (read_tag_xyz_eq_some q rT _).mpr ⟨rty, rsz, rfl⟩
    have hg := (read_tag_xyz_eq_some q gT _).mpr ⟨gty, gsz, rfl⟩
    have hb := (read_tag_xyz_eq_some q bT _).mpr ⟨bty, bsz, rfl⟩
    simp only [h1, h2, h3, hr, hg, hb]

/-- C6: after a successful parse, has_toXYZD50 is true exactly when rXYZ,
gXYZ, bXYZ are all present, each of type XYZ with at least 20 bytes; and in
that case the columns of toXYZD50 are the s15.16 (X, Y, Z) triples of the
rXYZ, gXYZ and bXYZ tags respectively. -/
theorem skcms_Parse_toXYZD50_spec (buf : List Nat) (p : skcms_ICCProfile)
    (h : skcms_Parse buf = (true, p)) :
    (p.has_toXYZD50 = true ↔
      ∃ rT gT bT,
        skcms_GetTagBySignature p sig_rXYZ = some rT ∧
        skcms_GetTagBySignature p sig_gXYZ = some gT ∧
        skcms_GetTagBySignature p sig_bXYZ = some bT ∧
        rT.type = sig_XYZ ∧ 20 ≤ rT.size ∧
        gT.type = sig_XYZ ∧ 20 ≤ gT.size ∧
        bT.type = sig_XYZ ∧ 20 ≤ bT.size) ∧
    (p.has_toXYZD50 = true →
      ∃ rT gT bT,
        skcms_GetTagBySignature p sig_rXYZ = some rT ∧
        skcms_GetTagBySignature p sig_gXYZ = some gT ∧
        skcms_GetTagBySignature p sig_bXYZ = some bT ∧
        p.toXYZD50 = { m00 := read_big_fixed buf (rT.buf + 8)
                       m01 := read_big_fixed buf (gT.buf + 8)
                       m02 := read_big_fixed buf (bT.buf + 8)
                       m10 := read_big_fixed buf (rT.buf + 12)
                       m11 := read_big_fixed buf (gT.buf + 12)
                       m12 := read_big_fixed buf (bT.buf + 12)
                       m20 := read_big_fixed buf (rT.buf + 16)
                       m21 := read_big_fixed buf (gT.buf + 16)
                       m22 := read_big_fixed buf (bT.buf + 16) }) := by
  simp only [skcms_Parse] at h
  split at h
  · injection h with h1 h2; cases h1
  · split at h
    · injection h with h1 h2; cases h1
    · split at h
      · injection h with h1 h2; cases h1
      · split at h
        · injection h with h1 h2; cases h1
        · injection h with h1 h2
          subst h2
          constructor
          · constructor
            · intro ht
              have ht2 : (read_to_XYZD50 (parse_header buf)).isSome = true := ht
              obtain ⟨m, hm⟩ := Option.isSome_iff_exists.mp ht2
              obtain ⟨rT, gT, bT, h1, h2, h3, c1, c2, c3, c4, c5, c6, -⟩ :=
                (read_to_XYZD50_some_iff _ m).mp hm
              exact ⟨rT, gT, bT, h1, h2, h3, c1, c2, c3, c4, c5, c6⟩
            · rintro ⟨rT, gT, bT, h1, h2, h3, c1, c2, c3, c4, c5, c6⟩
              have hm := (read_to_XYZD50_some_iff (parse_header buf) _).mpr
                ⟨rT, gT, bT, h1, h2, h3, c1, c2, c3, c4, c5, c6, rfl⟩
              exact Option.isSome_iff_exists.mpr ⟨_, hm⟩
          · intro ht
            have ht2 : (read_to_XYZD50 (parse_header buf)).isSome = true := ht
            obtain ⟨m, hm⟩ := Option.isSome_iff_exists.mp ht2
            obtain ⟨rT, gT, bT, h1, h2, h3, c1, c2, c3, c4, c5, c6, hmm⟩ :=
              (read_to_XYZD50_some_iff _ m).mp hm
            refine ⟨rT, gT, bT, h1, h2, h3, ?_⟩
            have hgd : (read_to_XYZD50 (parse_header buf)).getD zeroMatrix = m := by
              rw [hm]; rfl
            exact hgd.trans hmm

lemma mft_grid_size_eq (m : skcms_MultiFunctionTable) :
    mft_grid_size m =
      m.output_channels * m.table_byte_width * m.grid_points ^ m.input_channels :=
  foldl_mul_range _ _ _

lemma read_mft_common_spec (buf : List Nat) (tagoff : Nat)
    (m m1 : skcms_MultiFunctionTable) (h : read_mft_common buf tagoff m = some m1) :
    m1.output_channels = 3 ∧
    m1.input_channels = byteAt buf (tagoff + 8) ∧
    1 ≤ m1.input_channels ∧ m1.input_channels ≤ 4 ∧
    m1.grid_points = byteAt buf (tagoff + 10) ∧
    2 ≤ m1.grid_points ∧
    m1.input_table_size = m.input_table_size ∧
    m1.output_table_size = m.output_table_size ∧
    m1.table_byte_width = m.table_byte_width := by
  simp only [read_mft_common] at h
  split_ifs at h with c1 c2 c3
  injection h with h1
  subst h1
  dsimp only at c1 c2 c3 ⊢
  rw [not_or] at c2
  exact ⟨not_not.mp c1, rfl, by omega, by omega, rfl, by omega, rfl, rfl, rfl⟩

lemma init_mft_tables_spec (base len : Nat) (m mft : skcms_MultiFunctionTable)
    (h : init_mft_tables base len m = some mft) :
    mft.input_channels = m.input_channels ∧
    mft.grid_points = m.grid_points ∧
    mft.output_channels = m.output_channels ∧
    mft.input_table_size = m.input_table_size ∧
    mft.output_table_size = m.output_table_size ∧
    mft.table_byte_width = m.table_byte_width ∧
    m.input_channels * (m.input_table_size * m.table_byte_width) + mft_grid_size m +
      m.output_channels * (m.output_table_size * m.table_byte_width) ≤ len := by
  simp only [init_mft_tables] at h
  split_ifs at h with c
  injection h with h1
  subst h1
  exact ⟨rfl, rfl, rfl, rfl, rfl, rfl, not_lt.mp c⟩

/-- C7: extracting the A2B0 multi-function table succeeds only for tags of
type mft1 or mft2, with exactly 3 output channels, 1 to 4 input channels, at
least 2 grid points, table sizes fixed at 256 with byte width 1 for mft1 and
read from the tag within [2, 4096] with byte width 2 for mft2, and enough
bytes after the fixed layout for all the tables and the grid. -/
theorem skcms_GetMultiFunctionTable_requirements (p : skcms_ICCProfile)
    (mft : skcms_MultiFunctionTable) (h : skcms_GetMultiFunctionTable p = some mft) :
    ∃ t, skcms_GetTagBySignature p sig_A2B0 = some t ∧
      (t.type = sig_mft1 ∨ t.type = sig_mft2) ∧
      mft.output_channels = 3 ∧
      1 ≤ mft.input_channels ∧ mft.input_channels ≤ 4 ∧
      2 ≤ mft.grid_points ∧
      (t.type = sig_mft1 →
        48 ≤ t.size ∧
        mft.table_byte_width = 1 ∧ mft.input_table_size = 256 ∧
        mft.output_table_size = 256 ∧
        mft.input_channels * mft.input_table_size * mft.table_byte_width +
          mft.output_channels * mft.grid_points ^ mft.input_channels * mft.table_byte_width +
          mft.output_channels * mft.output_table_size * mft.table_byte_width ≤ t.size - 48) ∧
      (t.type = sig_mft2 →
        52 ≤ t.size ∧
        mft.table_byte_width = 2 ∧
        mft.input_table_size = read_big_u16 p.buffer (t.buf + 48) ∧
        mft.output_table_size = read_big_u16 p.buffer (t.buf + 50) ∧
        2 ≤ mft.input_table_size ∧ mft.input_table_size ≤ 4096 ∧
        2 ≤ mft.output_table_size ∧ mft.output_table_size ≤ 4096 ∧
        mft.input_channels * mft.input_table_size * mft.table_byte_width +
          mft.output_channels * mft.grid_points ^ mft.input_channels * mft.table_byte_width +
          mft.output_channels * mft.output_table_size * mft.table_byte_width ≤ t.size - 52) := by
  unfold skcms_GetMultiFunctionTable at h
  cases ha : skcms_GetTagBySignature p sig_A2B0 with
  | none => simp only [ha] at h; exact Option.noConfusion h
  | some t =>
  simp only [ha] at h
  by_cases t1 : t.type = sig_mft1
  · -- mft1
    rw [if_pos t1] at h
    simp only [read_tag_mft1] at h
    rcases Nat.lt_or_ge t.size 48 with hsz | hsz
    · rw [if_pos hsz] at h; exact Option.noConfusion h
    · rw [if_neg (not_lt.2 hsz)] at h
      cases hc : read_mft_common p.buffer t.buf emptyMFT with
      | none => simp only [hc] at h; exact Option.noConfusion h
      | some m =>
      simp only [hc] at h
      obtain ⟨co3, cin, cin1, cin4, cgp, cgp2, -, -, -⟩ :=
        read_mft_common_spec p.buffer t.buf emptyMFT m hc
      obtain ⟨e1, e2, e3, e4, e5, e6, hlen⟩ := init_mft_tables_spec _ _ _ _ h
      rw [mft_grid_size_eq] at hlen
      dsimp only at e1 e2 e3 e4 e5 e6 hlen
      refine ⟨t, rfl, Or.inl t1, ?_, ?_, ?_, ?_, ?_, ?_⟩
      · rw [e3]; exact co3
      · rw [e1]; exact cin1
      · rw [e1]; exact cin4
      · rw [e2]; exact cgp2
      · intro _
        refine ⟨hsz, e6, e4, e5, ?_⟩
        calc mft.input_channels * mft.input_table_size * mft.table_byte_width +
              mft.output_channels * mft.grid_points ^ mft.input_channels * mft.table_byte_width +
              mft.output_channels * mft.output_table_size * mft.table_byte_width
            = m.input_channels * (256 * 1) +
              m.output_channels * 1 * m.grid_points ^ m.input_channels +
              m.output_channels * (256 * 1) := by
              rw [e1, e2, e3, e4, e5, e6]
              ring
          _ ≤ t.size - 48 := hlen
      · intro ht2
        exact absurd (t1.symm.trans ht2) (by decide)
  · -- not mft1
    rw [if_neg t1] at h
    by_cases t2 : t.type = sig_mft2
    · rw [if_pos t2] at h
      simp only [read_tag_mft2] at h
      rcases Nat.lt_or_ge t.size 52 with hsz | hsz
      · rw [if_pos hsz] at h; exact Option.noConfusion h
      · rw [if_neg (not_lt.2 hsz)] at h
        cases hc : read_mft_common p.buffer t.buf emptyMFT with
        | none => simp only [hc] at h; exact Option.noConfusion h
        | some m =>
        simp only [hc] at h
        split_ifs at h with hts
        obtain ⟨co3, cin, cin1, cin4, cgp, cgp2, -, -, -⟩ :=
          read_mft_common_spec p.buffer t.buf emptyMFT m hc
        obtain ⟨e1, e2, e3, e4, e5, e6, hlen⟩ := init_mft_tables_spec _ _ _ _ h
        rw [mft_grid_size_eq] at hlen
        push_neg at hts
        obtain ⟨i2, i4096, o2, o4096⟩ := hts
        dsimp only at e1 e2 e3 e4 e5 e6 hlen i2 i4096 o2 o4096
        refine ⟨t, rfl, Or.inr t2, ?_, ?_, ?_, ?_, ?_, ?_⟩
        · rw [e3]; exact co3
        · rw [e1]; exact cin1
        · rw [e1]; exact cin4
        · rw [e2]; exact cgp2
        · intro ht1
          exact absurd (ht1.symm.trans t2) (by decide)
        · intro _
          refine ⟨hsz, e6, e4, e5, ?_, ?_, ?_, ?_, ?_⟩
          · rw [e4]; omega
          · rw [e4]; omega
          · rw [e5]; omega
          · rw [e5]; omega
          · calc mft.input_channels * mft.input_table_size * mft.table_byte_width +
                  mft.output_channels * mft.grid_points ^ mft.input_channels * mft.table_byte_width +
                  mft.output_channels * mft.output_table_size * mft.table_byte_width
                = m.input_channels * (read_big_u16 p.buffer (t.buf + 48) * 2) +
                  m.output_channels * 2 * m.grid_points ^ m.input_channels +
                  m.output_channels * (read_big_u16 p.buffer (t.buf + 50) * 2) := by
                  rw [e1, e2, e3, e4, e5, e6]
                  ring
              _ ≤ t.size - 52 := hlen
    · rw [if_neg t2] at h
      exact Option.noConfusion h

/-- C10: every accepted multi-function table takes its grid size from the
single one-byte grid_points field of the tag, and the grid byte count
accumulated by the loop multiplies that same grid_points once per input
axis — per-axis grid sizes cannot differ. -/
theorem skcms_GetMultiFunctionTable_uniform_grid (p : skcms_ICCProfile)
    (mft : skcms_MultiFunctionTable) (h : skcms_GetMultiFunctionTable p = some mft) :
    ∃ t, skcms_GetTagBySignature p sig_A2B0 = some t ∧
      mft.grid_points = byteAt p.buffer (t.buf + 10) ∧
      mft_grid_size mft =
        mft.output_channels * mft.table_byte_width * mft.grid_points ^ mft.input_channels := by
  unfold skcms_GetMultiFunctionTable at h
  cases ha : skcms_GetTagBySignature p sig_A2B0 with
  | none => simp only [ha] at h; exact Option.noConfusion h
  | some t =>
  simp only [ha] at h
  by_cases t1 : t.type = sig_mft1
  · rw [if_pos t1] at h
    simp only [read_tag_mft1] at h
    rcases Nat.lt_or_ge t.size 48 with hsz | hsz
    · rw [if_pos hsz] at h; exact Option.noConfusion h
    · rw [if_neg (not_lt.2 hsz)] at h
      cases hc : read_mft_common p.buffer t.buf emptyMFT with
      | none => simp only [hc] at h; exact Option.noConfusion h
      | some m =>
      simp only [hc] at h
      obtain ⟨-, -, -, -, cgp, -, -, -, -⟩ :=
        read_mft_common_spec p.buffer t.buf emptyMFT m hc
      obtain ⟨-, e2, -, -, -, -, -⟩ := init_mft_tables_spec _ _ _ _ h
      dsimp only at e2
      exact ⟨t, rfl, e2.trans cgp, mft_grid_size_eq mft⟩
  · rw [if_neg t1] at h
    by_cases t2 : t.type = sig_mft2
    · rw [if_pos t2] at h
      simp only [read_tag_mft2] at h
      rcases Nat.lt_or_ge t.size 52 with hsz | hsz
      · rw [if_pos hsz] at h; exact Option.noConfusion h
      · rw [if_neg (not_lt.2 hsz)] at h
        cases hc : read_mft_common p.buffer t.buf emptyMFT with
        | none => simp only [hc] at h; exact Option.noConfusion h
        | some m =>
        simp only [hc] at h
        split_ifs at h with hts
        obtain ⟨-, -, -, -, cgp, -, -, -, -⟩ :=
          read_mft_common_spec p.buffer t.buf emptyMFT m hc
        obtain ⟨-, e2, -, -, -, -, -⟩ := init_mft_tables_spec _ _ _ _ h
        dsimp only at e2
        exact ⟨t, rfl, e2.trans cgp, mft_grid_size_eq mft⟩
    · rw [if_neg t2] at h
      exact Option.noConfusion h

set_option maxRecDepth 1000000 in
lemma getMFT_profMFT : skcms_GetMultiFunctionTable profMFT = some mftW := by decide

/-- Witness for C7: the mft1 A2B0 tag of profMFT is accepted and satisfies
every requirement. -/
theorem skcms_GetMultiFunctionTable_requirements_witness :
    ∃ t, skcms_GetTagBySignature profMFT sig_A2B0 = some t ∧
      (t.type = sig_mft1 ∨ t.type = sig_mft2) ∧
      mftW.output_channels = 3 ∧
      1 ≤ mftW.input_channels ∧ mftW.input_channels ≤ 4 ∧
      2 ≤ mftW.grid_points ∧
      (t.type = sig_mft1 →
        48 ≤ t.size ∧
        mftW.table_byte_width = 1 ∧ mftW.input_table_size = 256 ∧
        mftW.output_table_size = 256 ∧
        mftW.input_channels * mftW.input_table_size * mftW.table_byte_width +
          mftW.output_channels * mftW.grid_points ^ mftW.input_channels * mftW.table_byte_width +
          mftW.output_channels * mftW.output_table_size * mftW.table_byte_width ≤ t.size - 48) ∧
      (t.type = sig_mft2 →
        52 ≤ t.size ∧
        mftW.table_byte_width = 2 ∧
        mftW.input_table_size = read_big_u16 profMFT.buffer (t.buf + 48) ∧
        mftW.output_table_size = read_big_u16 profMFT.buffer (t.buf + 50) ∧
        2 ≤ mftW.input_table_size ∧ mftW.input_table_size ≤ 4096 ∧
        2 ≤ mftW.output_table_size ∧ mftW.output_table_size ≤ 4096 ∧
        mftW.input_channels * mftW.input_table_size * mftW.table_byte_width +
          mftW.output_channels * mftW.grid_points ^ mftW.input_channels * mftW.table_byte_width +
          mftW.output_channels * mftW.output_table_size * mftW.table_byte_width ≤ t.size - 52) :=
  skcms_GetMultiFunctionTable_requirements profMFT mftW getMFT_profMFT

/-- Witness for C10: the accepted table of profMFT takes grid_points 2 from
the tag byte and its grid byte count is 3 * 1 * 2 ^ 1. -/
theorem skcms_GetMultiFunctionTable_uniform_grid_witness :
    ∃ t, skcms_GetTagBySignature profMFT sig_A2B0 = some t ∧
      mftW.grid_points = byteAt profMFT.buffer (t.buf + 10) ∧
      mft_grid_size mftW =
        mftW.output_channels * mftW.table_byte_width * mftW.grid_points ^ mftW.input_channels :=
  skcms_GetMultiFunctionTable_uniform_grid profMFT mftW getMFT_profMFT

set_option maxRecDepth 1000000 in
lemma parse_wbufXYZ_fst : (skcms_Parse wbufXYZ).1 = true :=
  skcms_Parse_fst_true wbufXYZ (by decide) (by decide) (by decide) (by decide) (by decide)
    (by rw [(by decide : (parse_header wbufXYZ).illuminant_X = mkRat 63190 65536)]; exact illumX_ok)
    (by rw [(by decide : (parse_header wbufXYZ).illuminant_Y = 1)]; exact illumY_ok)
    (by rw [(by decide : (parse_header wbufXYZ).illuminant_Z = mkRat 54061 65536)]; exact illumZ_ok)
    (by decide)

/-- Witness for C6: a profile with valid rXYZ, gXYZ, bXYZ tags parses
successfully; its has_toXYZD50 flag matches the three-tag condition and the
matrix columns are the three tag triples. -/
theorem skcms_Parse_toXYZD50_spec_witness :
    ((skcms_Parse wbufXYZ).2.has_toXYZD50 = true ↔
      ∃ rT gT bT,
        skcms_GetTagBySignature (skcms_Parse wbufXYZ).2 sig_rXYZ = some rT ∧
        skcms_GetTagBySignature (skcms_Parse wbufXYZ).2 sig_gXYZ = some gT ∧
        skcms_GetTagBySignature (skcms_Parse wbufXYZ).2 sig_bXYZ = some bT ∧
        rT.type = sig_XYZ ∧ 20 ≤ rT.size ∧
        gT.type = sig_XYZ ∧ 20 ≤ gT.size ∧
        bT.type = sig_XYZ ∧ 20 ≤ bT.size) ∧
    ((skcms_Parse wbufXYZ).2.has_toXYZD50 = true →
      ∃ rT gT bT,
        skcms_GetTagBySignature (skcms_Parse wbufXYZ).2 sig_rXYZ = some rT ∧
        skcms_GetTagBySignature (skcms_Parse wbufXYZ).2 sig_gXYZ = some gT ∧
        skcms_GetTagBySignature (skcms_Parse wbufXYZ).2 sig_bXYZ = some bT ∧
        (skcms_Parse wbufXYZ).2.toXYZD50 =
          { m00 := read_big_fixed wbufXYZ (rT.buf + 8)
            m01 := read_big_fixed wbufXYZ (gT.buf + 8)
            m02 := read_big_fixed wbufXYZ (bT.buf + 8)
            m10 := read_big_fixed wbufXYZ (rT.buf + 12)
            m11 := read_big_fixed wbufXYZ (gT.buf + 12)
            m12 := read_big_fixed wbufXYZ (bT.buf + 12)
            m20 := read_big_fixed wbufXYZ (rT.buf + 16)
            m21 := read_big_fixed wbufXYZ (gT.buf + 16)
            m22 := read_big_fixed wbufXYZ (bT.buf + 16) }) :=
  skcms_Parse_toXYZD50_spec wbufXYZ (skcms_Parse wbufXYZ).2
    (skcms_Parse_pair_of_fst wbufXYZ parse_wbufXYZ_fst)
